import Mathlib

/-!
Shallow embedding of the Smart Garage Door dual-node control subsystem.

Perception node: `controller_arduino.ino` (PIR motion sensor, HC-SR04
distance probe, manual button, servo actuator, serial link to the gateway).
Connectivity gateway: `controller_nodemcu.ino` (MQTT callback handling,
EEPROM-backed garage location, geofence evaluation over the user position,
door-state reports read from the serial link).

Machine floats (lat, lon, distances) are modelled as rationals: the firmware
only ever compares and copies them, so exact ordered-field values suffice.
Bytes on the serial link are modelled as natural numbers (0..255).
Side effects on the serial link and the MQTT session are modelled as lists
of emitted bytes / published messages.
-/

-- ===================== Perception node (controller_arduino.ino) ==========

/-- Servo angle for the open position (const int ANGLE_OPEN = 90). -/
def ANGLE_OPEN : Nat := 90

/-- Servo angle for the closed position (const int ANGLE_CLOSED = 0). -/
def ANGLE_CLOSED : Nat := 0

/-- Auto-close timeout in milliseconds (const unsigned long AUTO_CLOSE_TIME = 45000). -/
def AUTO_CLOSE_TIME : Nat := 45000

/-- measureDistanceCM: `duration` is the value returned by
`pulseIn(ECHO_PIN, HIGH, 30000)`, which is the echo pulse width in
microseconds, and 0 when no pulse completed within the timeout.
The source computes `distance = duration / 58` (integer division on a
nonnegative long) and returns `distance > 400 ? 400 : distance`. -/
def measureDistanceCM (duration : Nat) : Nat :=
  let distance := duration / 58
  if distance > 400 then 400 else distance

/-- Mutable state of the perception node: the globals `doorOpen`,
`userNearHome`, `tic` (millis at the last opening) and the last angle
written to the servo. -/
structure PerceptionState where
  doorOpen : Bool
  userNearHome : Bool
  tic : Nat
  servoAngle : Nat
  deriving DecidableEq, Repr

/-- State after `setup()`: globals initialised to false / 0 and the servo
driven to `ANGLE_CLOSED`. -/
def initialPerception : PerceptionState :=
  { doorOpen := false, userNearHome := false, tic := 0, servoAngle := ANGLE_CLOSED }

/-- openDoor(): sweeps the servo to `ANGLE_OPEN`, writes status byte 0x01
on the link, sets `doorOpen := true` and re-arms the auto-close timer with
`tic := millis()` (`now`). The blocking sweep and the LED pattern are not
part of the state we track. -/
def openDoor (now : Nat) (s : PerceptionState) : PerceptionState × List Nat :=
  ({ s with servoAngle := ANGLE_OPEN, doorOpen := true, tic := now }, [0x01])

/-- closeDoor(): sweeps the servo to `ANGLE_CLOSED`, writes status byte
0x00 on the link and clears `doorOpen`. -/
def closeDoor (s : PerceptionState) : PerceptionState × List Nat :=
  ({ s with servoAngle := ANGLE_CLOSED, doorOpen := false }, [0x00])

/-- FR5a + FR5b block of loop(): open automatically when
`pirState == HIGH && userNearHome && !doorOpen`. -/
def autoOpenStage (now : Nat) (pirHigh : Bool) (s : PerceptionState) :
    PerceptionState × List Nat :=
  if pirHigh = true ∧ s.userNearHome = true ∧ s.doorOpen = false then openDoor now s
  else (s, [])

/-- FR7 block of loop(): while the button samples LOW, toggle the door
(close when open, open when closed). -/
def manualStage (now : Nat) (buttonLow : Bool) (s : PerceptionState) :
    PerceptionState × List Nat :=
  if buttonLow = true then (if s.doorOpen = true then closeDoor s else openDoor now s)
  else (s, [])

/-- FR5b block of loop(): handling of one byte `cmd` read from the link.
Bytes above 0x03 are ignored (`if (cmd > 0x03) return;`); 0x01 opens,
0x00 closes, 0x02 sets `userNearHome`, 0x03 clears it. -/
def processCmd (now : Nat) (cmd : Nat) (s : PerceptionState) :
    PerceptionState × List Nat :=
  if 0x03 < cmd then (s, [])
  else if cmd = 0x01 then openDoor now s
  else if cmd = 0x00 then closeDoor s
  else if cmd = 0x02 then ({ s with userNearHome := true }, [])
  else ({ s with userNearHome := false }, [])

/-- FR4 + FR8 block of loop(): when the door is open, the auto-close timer
has elapsed (`millis() - tic > AUTO_CLOSE_TIME`) and the PIR reads LOW,
re-open if `distance < 10` (obstacle under the door), otherwise close. -/
def autoCloseStage (now : Nat) (pirHigh : Bool) (distance : Nat)
    (s : PerceptionState) : PerceptionState × List Nat :=
  if s.doorOpen = true ∧ AUTO_CLOSE_TIME < now - s.tic ∧ pirHigh = false then
    (if distance < 10 then openDoor now s else closeDoor s)
  else (s, [])

/-- One iteration of loop() on the perception node. Inputs sampled at the
top of the tick: `now` is millis(), `pirHigh` and `buttonLow` the digital
reads, `echoDuration` the pulseIn result used by measureDistanceCM, and
`serialCmd` the byte available on the link, if any. A byte above 0x03
makes the source return from loop() early, skipping the auto-close block
for that tick. Emitted link bytes are accumulated in order. -/
def perceptionTick (now : Nat) (pirHigh buttonLow : Bool) (echoDuration : Nat)
    (serialCmd : Option Nat) (s0 : PerceptionState) : PerceptionState × List Nat :=
  let distance := measureDistanceCM echoDuration
  let r1 := autoOpenStage now pirHigh s0
  let r2 := manualStage now buttonLow r1.1
  match serialCmd with
  | some cmd =>
      let r3 := processCmd now cmd r2.1
      if 0x03 < cmd then (r3.1, r1.2 ++ r2.2 ++ r3.2)
      else
        let r4 := autoCloseStage now pirHigh distance r3.1
        (r4.1, r1.2 ++ r2.2 ++ r3.2 ++ r4.2)
  | none =>
      let r4 := autoCloseStage now pirHigh distance r2.1
      (r4.1, r1.2 ++ r2.2 ++ r4.2)

-- ===================== Connectivity gateway (controller_nodemcu.ino) =====

/-- Geofence entry radius in metres (const float GEOFENCE_RADIUS = 15.0). -/
def GEOFENCE_RADIUS : ℚ := 15

/-- Core geofence transition of updateGeofence(): from outside, enter and
send 0x02 when `dist <= GEOFENCE_RADIUS`; from inside, leave and send 0x03
only when `dist > GEOFENCE_RADIUS + 20` (20 m hysteresis margin); in every
other case keep the state and send nothing. -/
def geofenceStep (dist : ℚ) (inside : Bool) : Bool × Option Nat :=
  if inside = false ∧ dist ≤ GEOFENCE_RADIUS then (true, some 0x02)
  else if inside = true ∧ GEOFENCE_RADIUS + 20 < dist then (false, some 0x03)
  else (inside, none)

/-- Folds geofenceStep over a sequence of distance samples, returning the
state reached after each sample together with the byte it emitted. -/
def runGeofence (inside : Bool) : List ℚ → List (Bool × Option Nat)
  | [] => []
  | d :: rest =>
      let r := geofenceStep d inside
      r :: runGeofence r.1 rest

/-- Mutable state of the gateway: the globals `doorOpen`, `garageLat`,
`garageLon`, `userLat`, `userLon` and `userInside`. -/
structure GatewayState where
  doorOpen : Bool
  garageLat : ℚ
  garageLon : ℚ
  userLat : ℚ
  userLon : ℚ
  userInside : Bool
  deriving DecidableEq, Repr

/-- Gateway globals as initialised at boot, before setup() loads the
garage coordinates: everything false / 0.0. -/
def initialGateway : GatewayState :=
  { doorOpen := false, garageLat := 0, garageLon := 0,
    userLat := 0, userLon := 0, userInside := false }

/-- Messages the gateway publishes on MQTT topics home/garage/door and
home/garage/location (the device id field carries no state and is
omitted). -/
inductive PubMsg where
  | door (value : Nat)
  | location (lat lon : ℚ)
  deriving DecidableEq, Repr

/-- Door-state report handling in the gateway loop(): for the byte read
from the link it sets `doorOpen = (state == 0x01)` and always publishes
`value = doorOpen ? 1 : 0` on the door topic. -/
def handleDoorReport (state : Nat) (g : GatewayState) :
    GatewayState × List PubMsg :=
  let g2 := { g with doorOpen := state == 0x01 }
  (g2, [PubMsg.door (if g2.doorOpen = true then 1 else 0)])

/-- The nine EEPROM bytes the firmware uses, grouped as the fixed-offset
record: latitude float at offsets 0..3, longitude float at offsets 4..7,
validity marker byte at offset 8. -/
structure EepromCells where
  lat : ℚ
  lon : ℚ
  valid : Nat
  deriving DecidableEq, Repr

/-- ESP8266 EEPROM emulation: EEPROM.put / EEPROM.get act on a RAM cache
and EEPROM.commit flushes the cache to flash. -/
structure Eeprom where
  cache : EepromCells
  flash : EepromCells
  deriving DecidableEq, Repr

/-- EEPROM.put of a 4-byte float at offset `off`: offset 0 is the latitude
slot, offset 4 the longitude slot; the firmware uses no other float
offset, so any other offset is left unmodelled as a no-op. -/
def eepromPutF (off : Nat) (v : ℚ) (e : Eeprom) : Eeprom :=
  if off = 0 then { e with cache := { e.cache with lat := v } }
  else if off = 4 then { e with cache := { e.cache with lon := v } }
  else e

/-- EEPROM.put of a single byte at offset `off`: offset 8 is the validity
marker slot. -/
def eepromPutB (off : Nat) (v : Nat) (e : Eeprom) : Eeprom :=
  if off = 8 then { e with cache := { e.cache with valid := v } } else e

/-- EEPROM.commit(): flush the RAM cache to flash. -/
def eepromCommit (e : Eeprom) : Eeprom :=
  { e with flash := e.cache }

/-- saveGarageLocation(lat, lon): EEPROM.put(0, lat); EEPROM.put(4, lon);
EEPROM.put(8, (uint8_t)1); EEPROM.commit(). -/
def saveGarageLocation (lat lon : ℚ) (e : Eeprom) : Eeprom :=
  eepromCommit (eepromPutB 8 1 (eepromPutF 4 lon (eepromPutF 0 lat e)))

/-- loadGarageLocation(&lat, &lon): reads the validity byte at offset 8 and
returns false when it differs from 1, leaving the out-parameters untouched
(modelled by `none`); otherwise reads latitude and longitude from offsets
0 and 4 and returns them. -/
def loadGarageLocation (e : Eeprom) : Option (ℚ × ℚ) :=
  if e.cache.valid ≠ 1 then none else some (e.cache.lat, e.cache.lon)

/-- update_location branch of mqttCallback(): with decoded coordinates
(newLat, newLon), when both are exactly zero the handler returns at once;
otherwise it overwrites the garage globals, saves them through
saveGarageLocation and republishes the garage location. -/
def handleUpdateLocation (newLat newLon : ℚ) (g : GatewayState) (e : Eeprom) :
    GatewayState × Eeprom × List PubMsg :=
  if newLat = 0 ∧ newLon = 0 then (g, e, [])
  else
    let g2 := { g with garageLat := newLat, garageLon := newLon }
    (g2, saveGarageLocation g2.garageLat g2.garageLon e,
      [PubMsg.location g2.garageLat g2.garageLon])

/-- user_location branch of mqttCallback(): unconditionally stores the
decoded user coordinates. -/
def handleUserLocation (lat lon : ℚ) (g : GatewayState) : GatewayState :=
  { g with userLat := lat, userLon := lon }

/-- Body of updateGeofence() past the 5 s cadence guard: when the stored
user position is exactly (0.0, 0.0) the function returns at once;
otherwise it computes the user-to-garage distance and applies the
geofence transition, updating `userInside` and possibly emitting one edge
byte on the link. The source computes the distance with haversine()
(double trigonometry); it is abstracted here as the parameter `distFn`,
which none of the stated properties constrain. -/
def updateGeofence (distFn : ℚ → ℚ → ℚ → ℚ → ℚ) (g : GatewayState) :
    GatewayState × Option Nat :=
  if g.userLat = 0 ∧ g.userLon = 0 then (g, none)
  else
    let dist := distFn g.userLat g.userLon g.garageLat g.garageLon
    let r := geofenceStep dist g.userInside
    ({ g with userInside := r.1 }, r.2)

-- ===================== Claims ============================================

/-- Claim C1: the autonomous open block transitions the door CLOSED to OPEN
exactly when motion is detected AND the user is near home AND the door is
currently closed; in particular, motion with userNearHome = false leaves
the controller state unchanged and emits nothing. -/
theorem autoOpen_gating (now : Nat) (pirHigh : Bool) (s : PerceptionState) :
    ((autoOpenStage now pirHigh s).1.doorOpen = true ∧ s.doorOpen = false
        ↔ pirHigh = true ∧ s.userNearHome = true ∧ s.doorOpen = false)
    ∧ (s.userNearHome = false → autoOpenStage now pirHigh s = (s, [])) := by
  obtain ⟨d, u, t, a⟩ := s
  cases pirHigh <;> cases u <;> cases d <;>
    simp [autoOpenStage, openDoor]

/-- Witness for autoOpen_gating: with the PIR reading motion but
userNearHome = false and the door closed, the stage is a no-op. -/
theorem autoOpen_gating_witness :
    autoOpenStage 7 true initialPerception = (initialPerception, []) :=
  (autoOpen_gating 7 true initialPerception).2 rfl

/-- Claim C2: in the auto-close block, with the door open, the timer
elapsed and no motion: a distance below 10 cm makes the controller run
openDoor (the door stays open and the chosen action is never closeDoor),
and closeDoor runs only when the distance is at least 10 cm. -/
theorem autoClose_safety (now distance : Nat) (s : PerceptionState)
    (hopen : s.doorOpen = true) (helapsed : AUTO_CLOSE_TIME < now - s.tic) :
    (distance < 10 →
        autoCloseStage now false distance s = openDoor now s
        ∧ (autoCloseStage now false distance s).1.doorOpen = true
        ∧ autoCloseStage now false distance s ≠ closeDoor s)
    ∧ (10 ≤ distance → autoCloseStage now false distance s = closeDoor s) := by
  constructor
  · intro hd
    have hcond : s.doorOpen = true ∧ AUTO_CLOSE_TIME < now - s.tic ∧ (false : Bool) = false :=
      ⟨hopen, helapsed, rfl⟩
    refine ⟨?_, ?_, ?_⟩ <;>
      simp [autoCloseStage, hcond, hd, openDoor, closeDoor]
  · intro hd
    have hcond : s.doorOpen = true ∧ AUTO_CLOSE_TIME < now - s.tic ∧ (false : Bool) = false :=
      ⟨hopen, helapsed, rfl⟩
    simp [autoCloseStage, hcond, Nat.not_lt.mpr hd]

/-- Witness for autoClose_safety: a concrete open door whose timer elapsed,
evaluated at an obstacle distance of 8 cm and at a clear 12 cm. -/
theorem autoClose_safety_witness :
    autoCloseStage 46000 false 8
        { doorOpen := true, userNearHome := false, tic := 0, servoAngle := 90 }
      = openDoor 46000
        { doorOpen := true, userNearHome := false, tic := 0, servoAngle := 90 }
    ∧ autoCloseStage 46000 false 12
        { doorOpen := true, userNearHome := false, tic := 0, servoAngle := 90 }
      = closeDoor
        { doorOpen := true, userNearHome := false, tic := 0, servoAngle := 90 } :=
  ⟨((autoClose_safety 46000 8
      { doorOpen := true, userNearHome := false, tic := 0, servoAngle := 90 }
      rfl (by decide)).1 (by decide)).1,
   (autoClose_safety 46000 12
      { doorOpen := true, userNearHome := false, tic := 0, servoAngle := 90 }
      rfl (by decide)).2 (by decide)⟩

/-- Claim C3 counterexample: pulseIn returns 0 on an echo timeout, and
measureDistanceCM then returns 0 cm, not the 400 cm saturation cap, so the
downstream obstacle check (distance < 10) reads an obstacle, not
maximum range. -/
theorem measureDistance_timeout_cex :
    measureDistanceCM 0 = 0 ∧ measureDistanceCM 0 ≠ 400
      ∧ measureDistanceCM 0 < 10 := by
  decide

/-- Claim C3 amended: measureDistanceCM saturates every reading at the
400 cm cap (it equals min (duration / 58) 400), but an echo timeout makes
pulseIn return duration 0, so the function returns 0 cm and the downstream
safety check sees an obstacle rather than no obstacle. -/
theorem measureDistance_saturation (duration : Nat) :
    measureDistanceCM duration = min (duration / 58) 400
    ∧ measureDistanceCM 0 = 0 ∧ measureDistanceCM 0 < 10 := by
  refine ⟨?_, by decide, by decide⟩
  simp only [measureDistanceCM]
  split_ifs with h <;> omega

/-- Claim C6: processing an inbound link byte outside 0x00..0x03 leaves
the perception state (doorOpen, userNearHome, auto-close timer tic, servo
angle) unchanged and emits no status byte. -/
theorem processCmd_unknown_frame (now cmd : Nat) (s : PerceptionState)
    (h : 0x03 < cmd) : processCmd now cmd s = (s, []) := by
  simp [processCmd, h]

/-- Witness for processCmd_unknown_frame: byte 0x07 at the boot state. -/
theorem processCmd_unknown_frame_witness :
    processCmd 5 0x07 initialPerception = (initialPerception, []) :=
  processCmd_unknown_frame 5 0x07 initialPerception (by decide)

/-- Claim C4: geofence hysteresis with entry radius R = 15 m and exit
margin M = 20 m: from OUTSIDE, exactly the samples with distance at most R
enter and emit byte 0x02; from INSIDE, every sample with distance at most
R + M = 35 keeps the state INSIDE with no emission, and only a sample with
distance above 35 exits and emits byte 0x03 — one edge byte per state
change and none otherwise. The spec scenario [30, 18, 12, 22, 40] yields
states [OUTSIDE, OUTSIDE, INSIDE, INSIDE, OUTSIDE] with edge bytes on the
third and fifth samples only. -/
theorem geofence_hysteresis :
    (∀ d : ℚ, geofenceStep d false =
        if d ≤ 15 then (true, some 0x02) else (false, none))
    ∧ (∀ d : ℚ, geofenceStep d true =
        if d ≤ 35 then (true, none) else (false, some 0x03))
    ∧ runGeofence false [30, 18, 12, 22, 40] =
        [(false, none), (false, none), (true, some 0x02),
          (true, none), (false, some 0x03)] := by
  refine ⟨?_, ?_, ?_⟩
  · intro d
    by_cases h : d ≤ 15 <;> simp [geofenceStep, GEOFENCE_RADIUS, h]
  · intro d
    by_cases h : d ≤ 35
    · have h2 : ¬ GEOFENCE_RADIUS + 20 < d := by
        simp only [GEOFENCE_RADIUS]
        norm_num
        linarith
      simp [geofenceStep, h, h2]
    · have h2 : GEOFENCE_RADIUS + 20 < d := by
        simp only [GEOFENCE_RADIUS]
        norm_num
        linarith [not_le.mp h]
      simp [geofenceStep, h, h2]
  · norm_num [runGeofence, geofenceStep, GEOFENCE_RADIUS]

/-- Claim C5 counterexample: byte 0x04 lies outside the LinkMessage set,
yet the gateway does not discard it: starting with doorOpen = true it sets
doorOpen to (0x04 == 0x01) = false and still publishes a door-state
message with value 0. -/
theorem doorReport_unknown_byte_cex :
    (handleDoorReport 0x04 { initialGateway with doorOpen := true }).1.doorOpen = false
    ∧ ({ initialGateway with doorOpen := true } : GatewayState).doorOpen = true
    ∧ (handleDoorReport 0x04 { initialGateway with doorOpen := true }).2
        = [PubMsg.door 0] := by
  refine ⟨rfl, rfl, rfl⟩

/-- Claim C5 amended: the gateway treats every byte it reads on the link
as a door-state report: doorOpen becomes true exactly when the byte is
0x01 (any other byte, known command codes included, reads as closed), and
a door-state message with the matching 0/1 value is always published —
unknown bytes are never discarded. -/
theorem doorReport_always_applies (b : Nat) (g : GatewayState) :
    ((handleDoorReport b g).1.doorOpen = true ↔ b = 0x01)
    ∧ (handleDoorReport b g).2
        = [PubMsg.door (if b = 0x01 then 1 else 0)] := by
  constructor
  · simp [handleDoorReport]
  · by_cases h : b = 0x01 <;> simp [handleDoorReport, h]

/-- Claim C7: the update-location handler rejects a message whose decoded
coordinates are both exactly zero — gateway coordinates, EEPROM and the
publish stream are all untouched — and for any other pair it stores the
new coordinates, persists them through saveGarageLocation and republishes
the new garage location. -/
theorem updateLocation_zero_sentinel (newLat newLon : ℚ) (g : GatewayState)
    (e : Eeprom) :
    (newLat = 0 ∧ newLon = 0 →
        handleUpdateLocation newLat newLon g e = (g, e, []))
    ∧ (¬(newLat = 0 ∧ newLon = 0) →
        handleUpdateLocation newLat newLon g e =
          ({ g with garageLat := newLat, garageLon := newLon },
            saveGarageLocation newLat newLon e,
            [PubMsg.location newLat newLon])) := by
  constructor
  · intro h
    simp [handleUpdateLocation, h]
  · intro h
    simp [handleUpdateLocation, h]

/-- Witness for updateLocation_zero_sentinel: the (0,0) sentinel is
dropped at the boot state, while (5,7) is stored, saved and republished. -/
theorem updateLocation_zero_sentinel_witness :
    handleUpdateLocation 0 0 initialGateway
        { cache := { lat := 0, lon := 0, valid := 0 },
          flash := { lat := 0, lon := 0, valid := 0 } }
      = (initialGateway,
          { cache := { lat := 0, lon := 0, valid := 0 },
            flash := { lat := 0, lon := 0, valid := 0 } }, [])
    ∧ handleUpdateLocation 5 7 initialGateway
        { cache := { lat := 0, lon := 0, valid := 0 },
          flash := { lat := 0, lon := 0, valid := 0 } }
      = ({ initialGateway with garageLat := 5, garageLon := 7 },
          saveGarageLocation 5 7
            { cache := { lat := 0, lon := 0, valid := 0 },
              flash := { lat := 0, lon := 0, valid := 0 } },
          [PubMsg.location 5 7]) :=
  ⟨(updateLocation_zero_sentinel 0 0 initialGateway
      { cache := { lat := 0, lon := 0, valid := 0 },
        flash := { lat := 0, lon := 0, valid := 0 } }).1 ⟨rfl, rfl⟩,
   (updateLocation_zero_sentinel 5 7 initialGateway
      { cache := { lat := 0, lon := 0, valid := 0 },
        flash := { lat := 0, lon := 0, valid := 0 } }).2 (by norm_num)⟩

/-- Claim C8: the persistent store round-trips: a load directly after
save(lat, lon) returns exactly (lat, lon); a load succeeds exactly when
the validity byte at offset 8 equals the set value 1 (otherwise it reports
unconfigured, returning none and touching nothing); and save — which puts
the latitude float at offset 0, the longitude float at offset 4 and then
the marker byte at offset 8 — finishes with a commit, so the flash copy
equals the cache, whose cells hold exactly (lat, lon, 1). -/
theorem store_roundtrip (lat lon : ℚ) (e : Eeprom) :
    loadGarageLocation (saveGarageLocation lat lon e) = some (lat, lon)
    ∧ ((loadGarageLocation e).isSome = true ↔ e.cache.valid = 1)
    ∧ (saveGarageLocation lat lon e).flash = (saveGarageLocation lat lon e).cache
    ∧ (saveGarageLocation lat lon e).cache = { lat := lat, lon := lon, valid := 1 } := by
  refine ⟨?_, ?_, ?_, ?_⟩
  · simp [saveGarageLocation, loadGarageLocation, eepromPutF, eepromPutB, eepromCommit]
  · by_cases h : e.cache.valid = 1 <;> simp [loadGarageLocation, h]
  · simp [saveGarageLocation, eepromCommit]
  · simp [saveGarageLocation, eepromPutF, eepromPutB, eepromCommit]

/-- Claim C9 counterexample: the manual trigger is not edge-triggered:
starting from the boot state with the button held LOW across two
consecutive loop ticks (no motion, no serial byte, clear 400 cm distance
probe), the door toggles on both ticks — open after the first, closed
again after the second — two toggles from a single press-and-hold instead
of exactly one. -/
theorem manual_hold_cex :
    (perceptionTick 0 false true 23200 none initialPerception).1.doorOpen = true
    ∧ (perceptionTick 500 false true 23200 none
        (perceptionTick 0 false true 23200 none initialPerception).1).1.doorOpen
        = false := by
  decide

/-- Claim C9 amended: the manual trigger block is level-triggered, not
debounced edge-triggered: on every loop tick in which the button samples
pressed the door state toggles (open to close, closed to open), the only
rate limiting being the 300 ms blocking delay inside the tick, so a press
held across several ticks toggles repeatedly; with the button released the
block is a no-op. -/
theorem manual_level_triggered (now : Nat) (s : PerceptionState) :
    (manualStage now true s).1.doorOpen = !s.doorOpen
    ∧ manualStage now false s = (s, []) := by
  obtain ⟨d, u, t, a⟩ := s
  cases d <;> simp [manualStage, openDoor, closeDoor]

/-- Claim C10: whenever the stored user position is exactly (0, 0) — as in
the boot state, before any user-location message, or after a user-location
message decoding to (0, 0), which the handler stores unconditionally — a
geofence evaluation tick emits no edge byte and leaves the whole gateway
state, userInside included, unchanged, whatever the distance function
computes. -/
theorem geofence_zero_position_inert (distFn : ℚ → ℚ → ℚ → ℚ → ℚ)
    (g : GatewayState) :
    (g.userLat = 0 → g.userLon = 0 → updateGeofence distFn g = (g, none))
    ∧ updateGeofence distFn (handleUserLocation 0 0 g)
        = (handleUserLocation 0 0 g, none)
    ∧ initialGateway.userLat = 0 ∧ initialGateway.userLon = 0 := by
  refine ⟨?_, ?_, rfl, rfl⟩
  · intro h1 h2
    simp [updateGeofence, h1, h2]
  · simp [updateGeofence, handleUserLocation]

/-- Witness for geofence_zero_position_inert: the boot state under a
constant distance function well inside the entry radius still produces no
transition and no byte. -/
theorem geofence_zero_position_inert_witness :
    updateGeofence (fun _ _ _ _ => 3) initialGateway = (initialGateway, none) :=
  (geofence_zero_position_inert (fun _ _ _ _ => 3) initialGateway).1 rfl rfl
